import Mathlib

/-!
Shallow embedding of `budget_assessment.py` (Azure budget assessment script).

Python floats are modelled as exact rationals (`ℚ`); Python's `round(x, n)`
(round half to even) is modelled by `pyRound`; Python `None` is `Option.none`;
a raised exception is `Except.error ()`.  A field written as the empty string
`""` in the Python report rows (meaning "no value") is modelled as `none`.
-/

namespace BudgetAssessment

/-- Round half to even on an exact rational, the tie-breaking rule used by
Python's builtin `round`. -/
def roundHalfEvenZ (q : ℚ) : ℤ :=
  let f := ⌊q⌋
  let r := q - f
  if r < 1/2 then f
  else if r > 1/2 then f + 1
  else if f % 2 = 0 then f else f + 1

/-- Python `round(q, n)` on exact rationals. -/
def pyRound (q : ℚ) (n : ℕ) : ℚ := (roundHalfEvenZ (q * 10 ^ n) : ℚ) / 10 ^ n

def digitsToNat? (cs : List Char) : Option ℕ :=
  if cs = [] then none
  else cs.foldl
    (fun acc c =>
      match acc with
      | none => none
      | some n => if c.isDigit then some (n * 10 + (c.toNat - 48)) else none)
    (some 0)

/-- Surrounding-whitespace strip, as `int(s)` performs before parsing. -/
def pyStripWS (cs : List Char) : List Char :=
  ((cs.dropWhile Char.isWhitespace).reverse.dropWhile Char.isWhitespace).reverse

/-- Python `s.lower()` for the ASCII strings this script compares. -/
def pyLower (s : String) : String := String.mk (s.data.map Char.toLower)

/-- Python `s.lower().startswith("forecast")`. -/
def lowerStartsWithForecast (s : String) : Bool :=
  ((pyLower s).data.take 8) = "forecast".data

/-- Python `int(s)` on a string: optional surrounding whitespace, optional
sign, decimal digits; `none` when `int` would raise `ValueError`. -/
def pyInt? (s : String) : Option ℤ :=
  match pyStripWS s.toList with
  | '-' :: rest => (digitsToNat? rest).map (fun n => -(n : ℤ))
  | '+' :: rest => (digitsToNat? rest).map (fun n => (n : ℤ))
  | cs => (digitsToNat? cs).map (fun n => (n : ℤ))

-- Module-level constants of the script.
def BUDGET_HEADROOM_PCT : ℚ := 1/10
def BUDGET_ROUND_TO : ℤ := 100

/-- `budget_accuracy(budget, actual)` (lines 29-34). -/
def budget_accuracy (budget actual : ℚ) : ℚ :=
  if budget ≤ 0 ∧ actual ≤ 0 then 1
  else if budget ≤ 0 ∨ actual ≤ 0 then 0
  else 1 - |budget - actual| / max budget actual

/-- `compute_suggested_budget(value, prev_two_months)` (lines 228-233). -/
def compute_suggested_budget (value : ℚ) (prev_two_months : List ℚ) : ℚ :=
  let baseline := max value ((value + prev_two_months.sum) / (1 + prev_two_months.length))
  let suggestion := baseline * (1 + BUDGET_HEADROOM_PCT)
  let suggestion :=
    if 0 < BUDGET_ROUND_TO then ((⌈suggestion / (BUDGET_ROUND_TO : ℚ)⌉ * BUDGET_ROUND_TO : ℤ) : ℚ)
    else suggestion
  pyRound suggestion 2

/-- `backoff_sleep(retry_after_header, attempt)` (lines 41-49), returning the
number of seconds slept instead of performing the sleep.  The header is
`none` when Python is passed `None`. -/
def backoff_sleep (retry_after_header : Option String) (attempt : ℕ) : ℤ :=
  match retry_after_header with
  | some s =>
      -- `if retry_after_header:` — the empty string is falsy
      if s ≠ "" then
        match pyInt? s with
        | some secs => max 1 (min secs 60)
        | none => min (2 ^ attempt) 30   -- int() raised ValueError
      else min (2 ^ attempt) 30
  | none => min (2 ^ attempt) 30

/-- What one `requests.request` call yields: a read timeout, or a response
with a status code and an optional `Retry-After` header. -/
inductive AttemptResult where
  | timeout : AttemptResult
  | status : ℕ → Option String → AttemptResult
deriving DecidableEq

/-- Result of `do_request`: the returned response's status, or the raised
exception (HTTP-status error from `raise_for_status`, or the re-raised
read-timeout). -/
inductive ReqOutcome where
  | success : ℕ → ReqOutcome
  | httpError : ℕ → ReqOutcome
  | timeoutError : ReqOutcome
deriving DecidableEq

structure DoReqResult where
  outcome : ReqOutcome
  /-- total number of HTTP requests issued -/
  attempts : ℕ
  /-- seconds slept before each retry, in order -/
  sleeps : List ℤ
deriving DecidableEq

/-- The retryable status set of line 67. -/
def retryableStatus (c : ℕ) : Bool :=
  c = 429 ∨ c = 500 ∨ c = 502 ∨ c = 503 ∨ c = 504

/-- `requests.Response.raise_for_status` raises exactly for 4xx and 5xx. -/
def raiseForStatusRaises (c : ℕ) : Bool := 400 ≤ c ∧ c < 600

/-- The `while True` loop of `do_request` (lines 56-74).  `responder i` is the
result of the `i`-th (0-based) `requests.request` call; `attempt` is the
Python `attempt` counter.  In the retryable branch past the limit,
`resp.raise_for_status()` always raises because every retryable status is in
[400, 600). -/
def doRequestGo (responder : ℕ → AttemptResult) (i attempt : ℕ) : DoReqResult :=
  match responder i with
  | .timeout =>
      if attempt + 1 > 6 then ⟨.timeoutError, i + 1, []⟩
      else
        let r := doRequestGo responder (i + 1) (attempt + 1)
        ⟨r.outcome, r.attempts, backoff_sleep none (attempt + 1) :: r.sleeps⟩
  | .status c ra =>
      if retryableStatus c then
        if attempt + 1 > 6 then ⟨.httpError c, i + 1, []⟩
        else
          let r := doRequestGo responder (i + 1) (attempt + 1)
          ⟨r.outcome, r.attempts, backoff_sleep ra (attempt + 1) :: r.sleeps⟩
      else if raiseForStatusRaises c then ⟨.httpError c, i + 1, []⟩
      else ⟨.success c, i + 1, []⟩
termination_by 7 - attempt
decreasing_by
  all_goals omega

/-- `do_request(method, url, token, ...)` (lines 52-74), abstracted over the
transport. -/
def do_request (responder : ℕ → AttemptResult) : DoReqResult :=
  doRequestGo responder 0 0

/-! ### Calendar dates (`datetime.date` and `relativedelta` month steps) -/

structure Date where
  year : ℕ
  month : ℕ
  day : ℕ
deriving DecidableEq, Repr

def isLeap (y : ℕ) : Bool := y % 4 = 0 ∧ (y % 100 ≠ 0 ∨ y % 400 = 0)

def daysInMonth (y m : ℕ) : ℕ :=
  if m = 2 then (if isLeap y then 29 else 28)
  else if m = 4 ∨ m = 6 ∨ m = 9 ∨ m = 11 then 30
  else 31

/-- `d - relativedelta(months=1)`: step to the previous calendar month,
clamping the day to the target month's length (a no-op for day 1). -/
def prevMonthD (d : Date) : Date :=
  if d.month = 1 then ⟨d.year - 1, 12, min d.day (daysInMonth (d.year - 1) 12)⟩
  else ⟨d.year, d.month - 1, min d.day (daysInMonth d.year (d.month - 1))⟩

/-- `d + relativedelta(months=1)`: step to the next calendar month, clamping
the day (a no-op for day 1). -/
def nextMonthD (d : Date) : Date :=
  if d.month = 12 then ⟨d.year + 1, 1, min d.day 31⟩
  else ⟨d.year, d.month + 1, min d.day (daysInMonth d.year (d.month + 1))⟩

/-- `d - timedelta(days=1)`. -/
def subOneDay (d : Date) : Date :=
  if 1 < d.day then ⟨d.year, d.month, d.day - 1⟩
  else if 1 < d.month then ⟨d.year, d.month - 1, daysInMonth d.year (d.month - 1)⟩
  else ⟨d.year - 1, 12, 31⟩

/-- `d + timedelta(days=1)`. -/
def addOneDay (d : Date) : Date :=
  if d.day < daysInMonth d.year d.month then ⟨d.year, d.month, d.day + 1⟩
  else if d.month < 12 then ⟨d.year, d.month + 1, 1⟩
  else ⟨d.year + 1, 1, 1⟩

/-- The cursor loop inside `first_last_day_of_last_n_months` (lines 152-156). -/
def fldGo (cursor : Date) : ℕ → List (Date × Date)
  | 0 => []
  | k + 1 =>
      let start : Date := ⟨cursor.year, cursor.month, 1⟩
      let e := subOneDay (nextMonthD start)
      (start, e) :: fldGo (prevMonthD start) k

/-- `first_last_day_of_last_n_months(n)` (lines 147-157); `today` stands for
`date.today()`. -/
def first_last_day_of_last_n_months (today : Date) (n : ℕ) : List (Date × Date) :=
  let first_this_month : Date := ⟨today.year, today.month, 1⟩
  fldGo (prevMonthD first_this_month) n

/-- The `timePeriod` date range sent for each month by
`cost_query_last_months_scope` (lines 172-175): `from` is the period start,
`to` is the day after the period end. -/
def cost_query_periods (today : Date) (n : ℕ) : List (Date × Date) :=
  (first_last_day_of_last_n_months today n).map (fun se => (se.1, addOneDay se.2))

/-- Iterated previous-month step: the month `k` months before `d`. -/
def backMonths (k : ℕ) (d : Date) : Date := prevMonthD^[k] d

/-- The calendar window of one month: its first and its last day. -/
def monthWindow (d : Date) : Date × Date :=
  (⟨d.year, d.month, 1⟩, ⟨d.year, d.month, daysInMonth d.year d.month⟩)

/-- Written from the claim wording (C7): the `n` fully elapsed calendar
months strictly before the current month, most recent first, each window
running from the first to the last day of that month.  For comparison with
`first_last_day_of_last_n_months`, which embeds what the code does. -/
def claimedMonthWindows (today : Date) (n : ℕ) : List (Date × Date) :=
  (List.range n).map (fun i => monthWindow (backMonths (i + 1) ⟨today.year, today.month, 1⟩))

/-- A well-formed month cursor: month in [1, 12], day pinned to 1. -/
def validMonthStart (d : Date) : Prop := 1 ≤ d.month ∧ d.month ≤ 12 ∧ d.day = 1

/-! ### Python values appearing in JSON rows and notification thresholds -/

/-- A Python value on which `float()` is attempted: either a numeric value
(numbers, and numeric strings, which behave identically at every use site
below), or a non-numeric value carrying only its truthiness. -/
inductive PyVal where
  | num : ℚ → PyVal
  | nonNum : Bool → PyVal
deriving DecidableEq

def PyVal.truthy : PyVal → Bool
  | .num q => q ≠ 0
  | .nonNum b => b

/-- `float(v)`: `none` when Python would raise `ValueError`/`TypeError`. -/
def PyVal.toQ? : PyVal → Option ℚ
  | .num q => some q
  | .nonNum _ => none

/-! ### Scope Cost Service -/

/-- Per-row contribution in the summation loop of lines 180-184:
`val += float(row[0] or 0.0)`, with `ValueError`/`TypeError` caught and the
row skipped. -/
def rowContrib (v : PyVal) : ℚ := if v.truthy then (v.toQ?).getD 0 else 0

/-- One month's total: sum of the query rows' first cells, rounded to two
decimals (line 185). -/
def monthCostSum (rows : List PyVal) : ℚ :=
  pyRound (rows.foldl (fun acc v => acc + rowContrib v) 0) 2

/-- `cost_query_last_months_scope(scope, months, token)` (lines 160-186),
abstracted over the transport: `query` maps the request's `timePeriod`
(inclusive `from` date, exclusive `to` date) to the response rows' first
cells, or to a raised exception, which propagates out of the whole loop. -/
def cost_query_last_months_scope (today : Date) (months : ℕ)
    (query : Date × Date → Except Unit (List PyVal)) : Except Unit (List ℚ) :=
  (first_last_day_of_last_n_months today months).mapM
    (fun se => (query (se.1, addOneDay se.2)).map monthCostSum)

/-- The caller boundary in `main` (for example lines 408-412): a successful
query series is kept month by month; a raised exception replaces the whole
series with `None` for every month. -/
def monthlySeriesAtCaller (today : Date) (months : ℕ)
    (query : Date × Date → Except Unit (List PyVal)) : List (Option ℚ) :=
  match cost_query_last_months_scope today months query with
  | .ok cs => cs.map some
  | .error _ => List.replicate months none

/-- Modelled from the spec (section 4.3 / claim C3 wording): the monthly
series that surfaces every month whose own query succeeded, with only the
failed months as `None`.  Written for comparison with
`monthlySeriesAtCaller`, which embeds what the code does. -/
def claimedMonthlySeries (today : Date) (months : ℕ)
    (query : Date × Date → Except Unit (List PyVal)) : List (Option ℚ) :=
  (cost_query_periods today months).map
    (fun p => ((query p).map monthCostSum).toOption)

/-- A concrete per-month query for exercising the caller boundary: the April
2024 query fails, every other month returns one row of cost 5. -/
def queryAprilFails (p : Date × Date) : Except Unit (List PyVal) :=
  if p.1 = ⟨2024, 4, 1⟩ then .error () else .ok [.num 5]

/-! ### Budgets and notifications -/

/-- One notification configuration dict, with the defaults that
`flatten_notifications` (lines 236-261) applies via `cfg.get`. -/
structure NotifCfg where
  enabled : Bool := true
  thresholdType : String := ""
  operator : String := ""
  threshold : Option PyVal := none
  contactEmails : List String := []
  contactGroups : List String := []
  contactRoles : List String := []
deriving DecidableEq

/-- A value of the notifications mapping: a dict, or anything else (skipped
by the `isinstance(cfg, dict)` check). -/
inductive NotifVal where
  | dict : NotifCfg → NotifVal
  | nonDict : NotifVal
deriving DecidableEq

/-- A budget as returned by the API, projected to the properties the script
reads.  `notifications` is `none` for Python `None`; the mapping keeps the
dict's insertion order. -/
structure Budget where
  name : String := ""
  amount : Option ℚ := none
  timeGrain : String := ""
  startDate : String := ""
  endDate : String := ""
  notifications : Option (List (String × NotifVal)) := none
deriving DecidableEq

/-- One flattened notification condition (the dict built at lines 243-254). -/
structure Cond where
  conditionKey : String
  enabled : Bool
  thresholdType : String
  operator : String
  thresholdPercent : Option PyVal
  contactEmails : String
  contactGroups : String
  contactRoles : String
deriving DecidableEq

/-- The numeric part of the sort key at lines 255-260:
`float(r.get("ThresholdPercent") or 0)`; `error` when `float()` raises. -/
def condSortKeyPercent (t : Option PyVal) : Except Unit ℚ :=
  match t with
  | none => .ok 0
  | some v =>
      if v.truthy then
        match v.toQ? with
        | some q => .ok q
        | none => .error ()
      else .ok 0

/-- Python tuple comparison of the sort keys `(ThresholdType, percent)`. -/
def condKeyLE (a b : Cond × ℚ) : Bool :=
  a.1.thresholdType < b.1.thresholdType
    ∨ (a.1.thresholdType = b.1.thresholdType ∧ a.2 ≤ b.2)

/-- `flatten_notifications(notifs)` (lines 236-261).  `list.sort` is stable;
its key function is evaluated for every element and can raise `ValueError`
on a truthy non-numeric threshold, which propagates. -/
def flatten_notifications (notifs : Option (List (String × NotifVal))) :
    Except Unit (List Cond) :=
  match notifs with
  | none => .ok []
  | some items =>
      if items = [] then .ok []   -- `if not notifs:` — the empty mapping is falsy
      else do
        let out := items.filterMap (fun kv =>
          match kv.2 with
          | .nonDict => none
          | .dict cfg => some
              { conditionKey := kv.1
                enabled := cfg.enabled
                thresholdType := cfg.thresholdType
                operator := cfg.operator
                thresholdPercent := cfg.threshold
                contactEmails := String.intercalate ";" cfg.contactEmails
                contactGroups := String.intercalate ";" cfg.contactGroups
                contactRoles := String.intercalate ";" cfg.contactRoles })
        let keyed ← out.mapM (fun c =>
          (condSortKeyPercent c.thresholdPercent).map (fun q => (c, q)))
        .ok ((keyed.mergeSort condKeyLE).map Prod.fst)

/-! ### Assessment Engine: report rows -/

/-- One report row; a Python `""` placeholder for a missing numeric or
boolean value is modelled as `none`. -/
structure Row where
  scopeType : String
  scopeId : String
  subscriptionName : String
  subscriptionId : String
  resourceGroup : String
  budgetName : String
  budgetAmount : Option ℚ
  budgetTimeGrain : String
  budgetStartDate : String
  budgetEndDate : String
  conditionKey : String
  thresholdType : String
  operator : String
  thresholdPercent : Option PyVal
  enabled : Option Bool
  contactEmails : String
  contactGroups : String
  contactRoles : String
  lastMonthCost : Option ℚ
  prevMonthCost : Option ℚ
  prev2MonthCost : Option ℚ
  percentOfBudgetLastMonth : Option ℚ
  budgetAccuracy : Option ℚ
  currentMonthForecastTotal : Option ℚ
  forecastPercentOfBudget : Option ℚ
  forecastConditionWillTrigger : Option Bool
  suggestedBudgetActualBased : Option ℚ
  suggestedBudgetForecastBased : Option ℚ
  suggestionNote : String
deriving DecidableEq

/-- The per-condition `will_trigger` computation of lines 650-660:
`""` (here `none`) unless the condition exists, its threshold type starts
with "forecast" case-insensitively, the forecast percent is non-empty and
the threshold percent is non-`None`; `float()` failures are caught and give
`""`. -/
def forecastWillTrigger (cond : Option Cond) (forecastPercentOfBudget : Option ℚ) :
    Option Bool :=
  match cond with
  | none => none
  | some c =>
      if lowerStartsWithForecast c.thresholdType then
        match forecastPercentOfBudget, c.thresholdPercent with
        | some f, some v =>
            match v.toQ? with
            | some t => some (decide (t ≤ f))
            | none => none
        | _, _ => none
      else none

/-- The `acc` computation of lines 624-628:
`if (last_val is not None and amount)` — `amount` must be truthy (non-`None`
and nonzero). -/
def emitAcc (last_val amount : Option ℚ) : Option ℚ :=
  match last_val, amount with
  | some lv, some amt =>
      if amt ≠ 0 then some (pyRound (budget_accuracy amt lv) 4) else none
  | _, _ => none

/-- The percent-of-budget computations of lines 639-648:
`if (x and amount)` — BOTH operands must be truthy, so an exact-zero cost or
forecast, like a zero amount, yields `""`. -/
def emitPercentOfBudget (x amount : Option ℚ) : Option ℚ :=
  match x, amount with
  | some q, some amt =>
      if q ≠ 0 ∧ amt ≠ 0 then some (pyRound (q / amt * 100) 2) else none
  | _, _ => none

/-- One appended row of the loop at lines 650-694. -/
def emitRow (scope_type scope_id sub_name sub_id resource_group : String)
    (budget : Budget) (last_val : Option ℚ) (prev_two : List ℚ)
    (forecast_total : Option ℚ) (cond : Option Cond) : Row :=
  { scopeType := scope_type
    scopeId := scope_id
    subscriptionName := sub_name
    subscriptionId := sub_id
    resourceGroup := resource_group
    budgetName := budget.name
    budgetAmount := budget.amount.map (fun amt => pyRound amt 2)
    budgetTimeGrain := budget.timeGrain
    budgetStartDate := budget.startDate
    budgetEndDate := budget.endDate
    conditionKey := (cond.map Cond.conditionKey).getD ""
    thresholdType := (cond.map Cond.thresholdType).getD ""
    operator := (cond.map Cond.operator).getD ""
    thresholdPercent := cond.bind Cond.thresholdPercent
    enabled := cond.map Cond.enabled
    contactEmails := (cond.map Cond.contactEmails).getD ""
    contactGroups := (cond.map Cond.contactGroups).getD ""
    contactRoles := (cond.map Cond.contactRoles).getD ""
    lastMonthCost := last_val
    prevMonthCost := prev_two[0]?
    prev2MonthCost := prev_two[1]?
    percentOfBudgetLastMonth := emitPercentOfBudget last_val budget.amount
    budgetAccuracy := emitAcc last_val budget.amount
    currentMonthForecastTotal := forecast_total
    forecastPercentOfBudget := emitPercentOfBudget forecast_total budget.amount
    forecastConditionWillTrigger :=
      forecastWillTrigger cond (emitPercentOfBudget forecast_total budget.amount)
    suggestedBudgetActualBased := last_val.map (fun v => compute_suggested_budget v prev_two)
    suggestedBudgetForecastBased := forecast_total.map (fun v => compute_suggested_budget v prev_two)
    suggestionNote := "Suggestions = max(value, 3-mo avg) + 10 percent headroom, rounded." }

/-- `emit_budget_rows(...)` (lines 602-694), returning the appended rows.
The `error` case is the uncaught `ValueError` that `flatten_notifications`
can raise while sorting.  `conditions = flatten_notifications(...) or [None]`
falls back to a single empty condition. -/
def emit_budget_rows (scope_type scope_id sub_name sub_id : String) (budget : Budget)
    (last_val : Option ℚ) (prev_two : List ℚ) (forecast_total : Option ℚ)
    (resource_group : String := "") : Except Unit (List Row) :=
  match flatten_notifications budget.notifications with
  | .error e => .error e
  | .ok conds =>
      .ok ((if conds = [] then [none] else conds.map some).map
        (emitRow scope_type scope_id sub_name sub_id resource_group budget
          last_val prev_two forecast_total))

/-! ### The driver (`main`, lines 305-599) -/

structure MGRec where
  managementGroupId : String
  displayName : String
deriving DecidableEq

structure SubRec where
  subscriptionId : String
  displayName : String
deriving DecidableEq

/-- The remote world as `main` sees it, one field per helper that performs
network calls. -/
structure Env where
  discover : Except Unit (List MGRec × List SubRec)
  budgetsAt : String → Except Unit (List Budget)
  monthQuery : String → Date × Date → Except Unit (List PyVal)
  forecastAt : String → Except Unit ℚ
  rgList : String → Except Unit (List String)

/-- The command-line arguments `main` reads (filters already lowercased, as
`main` normalises them). -/
structure Args where
  includeMG : Bool
  includeSub : Bool
  includeRG : Bool
  months : ℕ
  subFilter : List String
  rgFilter : List String

def mgScopePath (mgId : String) : String :=
  "/providers/Microsoft.Management/managementGroups/" ++ mgId

def subScopePath (subId : String) : String := "/subscriptions/" ++ subId

def rgScopePath (subId rg : String) : String :=
  "/subscriptions/" ++ subId ++ "/resourceGroups/" ++ rg

/-- A `try/except` that downgrades a failure to the empty list, the pattern
used for every budget fetch and for the resource-group listing. -/
def caughtList {α : Type} (e : Except Unit (List α)) : List α :=
  match e with
  | .ok l => l
  | .error _ => []

def scopeMonthlySeries (env : Env) (today : Date) (months : ℕ) (scope : String) :
    List (Option ℚ) :=
  monthlySeriesAtCaller today months (env.monthQuery scope)

/-- `xx_monthly[0] if xx_monthly and xx_monthly[0] is not None else None`. -/
def lastOfSeries (monthly : List (Option ℚ)) : Option ℚ := monthly.head?.join

/-- `[c for c in xx_monthly[1:3] if c is not None]`. -/
def prevTwoOfSeries (monthly : List (Option ℚ)) : List ℚ :=
  ((monthly.drop 1).take 2).filterMap id

/-- One management group in the loop of lines 347-387: budget fetch failures
are downgraded to no budgets; a budget-less group emits nothing. -/
def processOneMG (env : Env) (today : Date) (months : ℕ) (mg : MGRec) :
    Except Unit (List Row) :=
  let scope := mgScopePath mg.managementGroupId
  let budgets := caughtList (env.budgetsAt scope)
  if budgets = [] then .ok []
  else
    let monthly := scopeMonthlySeries env today months scope
    let fc := (env.forecastAt scope).toOption
    (budgets.mapM (fun b =>
      emit_budget_rows "MG" scope "" "" b (lastOfSeries monthly) (prevTwoOfSeries monthly) fc)).map
      List.flatten

/-- The synthetic row appended at lines 448-480 for a subscription with no
budgets. -/
def subNoBudgetRow (s : SubRec) (last : Option ℚ) (prev2 : List ℚ) (fc : Option ℚ) : Row :=
  { scopeType := "Subscription"
    scopeId := subScopePath s.subscriptionId
    subscriptionName := s.displayName
    subscriptionId := s.subscriptionId
    resourceGroup := ""
    budgetName := ""
    budgetAmount := none
    budgetTimeGrain := ""
    budgetStartDate := ""
    budgetEndDate := ""
    conditionKey := ""
    thresholdType := ""
    operator := ""
    thresholdPercent := none
    enabled := none
    contactEmails := ""
    contactGroups := ""
    contactRoles := ""
    lastMonthCost := last
    prevMonthCost := prev2[0]?
    prev2MonthCost := prev2[1]?
    percentOfBudgetLastMonth := none
    budgetAccuracy := none
    currentMonthForecastTotal := fc
    forecastPercentOfBudget := none
    forecastConditionWillTrigger := none
    suggestedBudgetActualBased := last.map (fun v => compute_suggested_budget v prev2)
    suggestedBudgetForecastBased := fc.map (fun v => compute_suggested_budget v prev2)
    suggestionNote := "No budget configured at this scope. Suggestions = max(value, 3-mo avg) + 10 percent headroom, rounded." }

/-- The subscription-budget part of the loop (lines 401-480): returns the
rows appended to `sub_rows` and to `sub_nobudget_rows`. -/
def processSubBudgetPart (env : Env) (today : Date) (months : ℕ) (s : SubRec) :
    Except Unit (List Row × List Row) :=
  let scope := subScopePath s.subscriptionId
  let budgets := caughtList (env.budgetsAt scope)
  let monthly := scopeMonthlySeries env today months scope
  let last := lastOfSeries monthly
  let prev2 := prevTwoOfSeries monthly
  let fc := (env.forecastAt scope).toOption
  if budgets ≠ [] then
    (budgets.mapM (fun b =>
      emit_budget_rows "Subscription" scope s.displayName s.subscriptionId b last prev2 fc)).map
      (fun ls => (ls.flatten, []))
  else .ok ([], [subNoBudgetRow s last prev2 fc])

/-- One resource group in the inner loop of lines 500-538. -/
def processOneRG (env : Env) (today : Date) (months : ℕ) (s : SubRec) (rg : String) :
    Except Unit (List Row) :=
  let scope := rgScopePath s.subscriptionId rg
  let budgets := caughtList (env.budgetsAt scope)
  if budgets = [] then .ok []
  else
    let monthly := scopeMonthlySeries env today months scope
    let fc := (env.forecastAt scope).toOption
    (budgets.mapM (fun b =>
      emit_budget_rows "ResourceGroup" scope s.displayName s.subscriptionId b
        (lastOfSeries monthly) (prevTwoOfSeries monthly) fc rg)).map List.flatten

/-- The resource-group part of the loop (lines 483-538): a failing
`list_resource_groups` is caught and downgraded to an empty listing. -/
def processSubRGPart (env : Env) (today : Date) (months : ℕ) (a : Args) (s : SubRec) :
    Except Unit (List Row) :=
  let rgs :=
    match env.rgList s.subscriptionId with
    | .ok rgs =>
        if a.rgFilter ≠ [] then rgs.filter (fun (rg : String) => a.rgFilter.contains (pyLower rg))
        else rgs
    | .error _ => []
  (rgs.mapM (processOneRG env today months s)).map List.flatten

/-- One subscription of the loop at lines 393-538. -/
def processOneSub (env : Env) (today : Date) (a : Args) (s : SubRec) :
    Except Unit (List Row × List Row × List Row) := do
  let sub ← if a.includeSub then processSubBudgetPart env today a.months s
            else .ok ([], [])
  let rgRows ← if a.includeRG then processSubRGPart env today a.months a s else .ok []
  .ok (sub.1, sub.2, rgRows)

/-- The four row collections `main` accumulates and hands to the sheet
writer. -/
structure MainOut where
  mgRows : List Row
  subRows : List Row
  subNoBudgetRows : List Row
  rgRows : List Row
deriving DecidableEq

/-- `main()` (lines 305-599) up to the workbook serialization: the hierarchy
discovery at line 321 is NOT wrapped in `try/except`, so its failure
propagates and aborts the run. -/
def mainModel (env : Env) (today : Date) (a : Args) : Except Unit MainOut := do
  let disc ← if a.includeMG || a.includeSub || a.includeRG then env.discover
             else .ok ([], [])
  let subs := if a.subFilter ≠ [] then
                disc.2.filter (fun s => a.subFilter.contains (pyLower s.subscriptionId))
              else disc.2
  let mgRows ← if a.includeMG then
                 (disc.1.mapM (processOneMG env today a.months)).map List.flatten
               else .ok []
  let perSub ← subs.mapM (processOneSub env today a)
  .ok { mgRows := mgRows
        subRows := (perSub.map (fun t => t.1)).flatten
        subNoBudgetRows := (perSub.map (fun t => t.2.1)).flatten
        rgRows := (perSub.map (fun t => t.2.2)).flatten }

/-! ### Concrete environments for exercising the driver -/

/-- One subscription under the root; every call succeeds except the
resource-group listing, which raises. -/
def envRgFails : Env :=
  ⟨.ok ([], [⟨"s1", "Sub One"⟩]), fun _ => .ok [], fun _ _ => .ok [],
   fun _ => .ok 0, fun _ => .error ()⟩

/-- The hierarchy discovery itself raises; everything else succeeds. -/
def envDiscFails : Env :=
  ⟨.error (), fun _ => .ok [], fun _ _ => .ok [], fun _ => .ok 0, fun _ => .ok []⟩

/-- Everything succeeds and returns no data. -/
def envOkEmpty : Env :=
  ⟨.ok ([], []), fun _ => .ok [], fun _ _ => .ok [], fun _ => .ok 0, fun _ => .ok []⟩

/-- `--scopes rg`. -/
def argsRgOnly : Args := ⟨false, false, true, 3, [], []⟩

/-- `--scopes mg,sub,rg` (the default). -/
def argsAllScopes : Args := ⟨true, true, true, 3, [], []⟩

/-- A budget whose amount is exactly 0 (valid: the data model only requires
amount ≥ 0) and which carries no notifications. -/
def bAmountZero : Budget := { amount := some 0 }

/-! ## Helper lemmas -/

theorem roundHalfEvenZ_intCast (z : ℤ) : roundHalfEvenZ (z : ℚ) = z := by
  simp only [roundHalfEvenZ, Int.floor_intCast, sub_self]
  norm_num

theorem pyRound_intCast (z : ℤ) (n : ℕ) : pyRound (z : ℚ) n = z := by
  have h : ((z : ℚ) * 10 ^ n) = ((z * 10 ^ n : ℤ) : ℚ) := by push_cast; ring
  rw [pyRound, h, roundHalfEvenZ_intCast]
  rw [div_eq_iff (by positivity)]
  push_cast; ring

theorem compute_suggested_budget_closed (v : ℚ) (p : List ℚ) :
    compute_suggested_budget v p
      = ((⌈(max v ((v + p.sum) / (1 + p.length)) * (11/10)) / 100⌉ * 100 : ℤ) : ℚ) := by
  simp only [compute_suggested_budget, BUDGET_ROUND_TO, BUDGET_HEADROOM_PCT]
  rw [if_pos (by norm_num)]
  rw [pyRound_intCast]
  norm_num

theorem listMapM_ok {α β : Type} (f : α → Except Unit β) (l : List α)
    (h : ∀ x ∈ l, (f x).isOk = true) :
    ∃ bs : List β, l.mapM f = Except.ok bs
      ∧ bs.map some = l.map (fun x => (f x).toOption) := by
  induction l with
  | nil => exact ⟨[], rfl, rfl⟩
  | cons x xs ih =>
      have hx := h x (List.mem_cons_self x xs)
      obtain ⟨b, hb⟩ : ∃ b, f x = .ok b := by
        cases hfx : f x with
        | ok b => exact ⟨b, rfl⟩
        | error e => rw [hfx] at hx; simp [Except.isOk, Except.toBool] at hx
      obtain ⟨bs, hbs, hmap⟩ := ih (fun y hy => h y (List.mem_cons_of_mem x hy))
      refine ⟨b :: bs, ?_, ?_⟩
      · rw [List.mapM_cons, hb, hbs]; rfl
      · simp only [List.map_cons, hmap, hb]
        rfl

theorem listMapM_error {α β : Type} (f : α → Except Unit β) (l : List α)
    (h : ∃ x ∈ l, (f x).isOk = false) :
    l.mapM f = Except.error () := by
  induction l with
  | nil => simp at h
  | cons x xs ih =>
      rw [List.mapM_cons]
      cases hfx : f x with
      | error e =>
          cases e
          rfl
      | ok b =>
          obtain ⟨y, hy, hyf⟩ := h
          rcases List.mem_cons.mp hy with heq | hmem
          · rw [heq] at hyf; rw [hfx] at hyf; simp [Except.isOk, Except.toBool] at hyf
          · rw [ih ⟨y, hmem, hyf⟩]
            rfl

theorem exceptMap_isOk {α β : Type} (e : Except Unit α) (f : α → β) :
    (e.map f).isOk = e.isOk := by
  cases e <;> rfl

theorem daysInMonth_pos (y m : ℕ) : 1 ≤ daysInMonth y m := by
  unfold daysInMonth
  split
  · split <;> norm_num
  · split <;> norm_num

theorem backMonths_zero (d : Date) : backMonths 0 d = d := rfl

theorem prevMonthD_valid {d : Date} (h : validMonthStart d) :
    validMonthStart (prevMonthD d) := by
  obtain ⟨h1, h2, h3⟩ := h
  by_cases hm : d.month = 1
  · rw [prevMonthD, if_pos hm]
    refine ⟨?_, ?_, ?_⟩
    · show (1:ℕ) ≤ 12; norm_num
    · show (12:ℕ) ≤ 12; norm_num
    · show min d.day (daysInMonth (d.year - 1) 12) = 1
      rw [h3, Nat.min_eq_left (daysInMonth_pos _ _)]
  · rw [prevMonthD, if_neg hm]
    refine ⟨?_, ?_, ?_⟩
    · show 1 ≤ d.month - 1; omega
    · show d.month - 1 ≤ 12; omega
    · show min d.day (daysInMonth d.year (d.month - 1)) = 1
      rw [h3, Nat.min_eq_left (daysInMonth_pos _ _)]

theorem backMonths_valid (k : ℕ) {d : Date} (h : validMonthStart d) :
    validMonthStart (backMonths k d) := by
  induction k generalizing d with
  | zero => exact h
  | succ n ih =>
      rw [backMonths, Function.iterate_succ_apply]
      exact ih (prevMonthD_valid h)

theorem subOneDay_nextMonthD (y m : ℕ) (h1 : 1 ≤ m) (h2 : m ≤ 12) :
    subOneDay (nextMonthD ⟨y, m, 1⟩) = ⟨y, m, daysInMonth y m⟩ := by
  by_cases hm : m = 12
  · subst hm
    simp [nextMonthD, subOneDay, daysInMonth]
  · have hlt : m < 12 := by omega
    rw [nextMonthD]
    simp only [hm, if_false]
    rw [Nat.min_eq_left (daysInMonth_pos _ _)]
    rw [subOneDay]
    simp only [show ¬(1 < 1) from by omega, if_false, show 1 < m + 1 from by omega, if_true]
    simp

theorem addOneDay_lastDay (y m : ℕ) (h1 : 1 ≤ m) (h2 : m ≤ 12) :
    addOneDay ⟨y, m, daysInMonth y m⟩ = nextMonthD ⟨y, m, 1⟩ := by
  by_cases hm : m = 12
  · subst hm
    simp [addOneDay, nextMonthD, daysInMonth]
  · have hlt : m < 12 := by omega
    rw [addOneDay]
    simp only [show ¬(daysInMonth y m < daysInMonth y m) from by omega, if_false, hlt, if_true]
    rw [nextMonthD]
    simp only [hm, if_false]
    rw [Nat.min_eq_left (daysInMonth_pos _ _)]

theorem fldGo_eq_claimed (n : ℕ) : ∀ cursor : Date, validMonthStart cursor →
    fldGo cursor n = (List.range n).map (fun i => monthWindow (backMonths i cursor)) := by
  induction n with
  | zero => intro cursor _; simp [fldGo]
  | succ k ih =>
      intro cursor hc
      obtain ⟨h1, h2, h3⟩ := hc
      have hstart : (⟨cursor.year, cursor.month, 1⟩ : Date) = cursor := by
        cases cursor with
        | mk y m d => simp at h3; rw [h3]
      have hgo : fldGo cursor (k + 1)
          = (⟨cursor.year, cursor.month, 1⟩,
              subOneDay (nextMonthD ⟨cursor.year, cursor.month, 1⟩))
            :: fldGo (prevMonthD ⟨cursor.year, cursor.month, 1⟩) k := rfl
      rw [hgo, List.range_succ_eq_map, List.map_cons, List.map_map]
      congr 1
      · rw [subOneDay_nextMonthD _ _ h1 h2]
        simp [monthWindow, backMonths_zero]
      · rw [ih (prevMonthD ⟨cursor.year, cursor.month, 1⟩)
            (prevMonthD_valid ⟨h1, h2, rfl⟩)]
        apply List.map_congr_left
        intro i _
        simp only [Function.comp_apply, backMonths, Function.iterate_succ_apply]
        rw [hstart]

theorem forecastWillTrigger_fpb_none (cond : Option Cond) :
    forecastWillTrigger cond none = none := by
  cases cond with
  | none => rfl
  | some c =>
      obtain ⟨k, en, tt, op, tp, a1, a2, a3⟩ := c
      cases tp <;> simp [forecastWillTrigger]

theorem emitAcc_zero_amount (lv : Option ℚ) : emitAcc lv (some 0) = none := by
  cases lv <;> simp [emitAcc]

theorem emitPercentOfBudget_zero_amount (x : Option ℚ) :
    emitPercentOfBudget x (some 0) = none := by
  cases x <;> simp [emitPercentOfBudget]

theorem emitPercentOfBudget_zero_val (a : Option ℚ) :
    emitPercentOfBudget (some 0) a = none := by
  cases a <;> simp [emitPercentOfBudget]

theorem emit_rows_shape (st si sn sid rg : String) (b : Budget)
    (lv : Option ℚ) (p2 : List ℚ) (fc : Option ℚ) (rows : List Row)
    (h : emit_budget_rows st si sn sid b lv p2 fc rg = .ok rows) :
    ∀ r ∈ rows, ∃ cond, r = emitRow st si sn sid rg b lv p2 fc cond := by
  rw [emit_budget_rows] at h
  cases hc : flatten_notifications b.notifications with
  | error e => rw [hc] at h; exact absurd h (by simp)
  | ok conds =>
      rw [hc] at h
      simp only [Except.ok.injEq] at h
      intro r hr
      rw [← h] at hr
      obtain ⟨cond, _, hcr⟩ := List.mem_map.mp hr
      exact ⟨cond, hcr.symm⟩

/-! ## Claims -/

/-- Claim C1: for every value `v` and list of prior months `p`,
`compute_suggested_budget v p` equals round-to-2-decimals of
`ceil((max v ((v + sum p) / (1 + len p)) * 1.10) / 100) * 100`; in
particular `compute_suggested_budget 1000 [800, 900] = 1100.0` and
`compute_suggested_budget 950 [] = 1100.0`. -/
theorem c1_suggested_budget (v : ℚ) (p : List ℚ) :
    compute_suggested_budget v p
      = pyRound ((⌈(max v ((v + p.sum) / (1 + p.length)) * (11/10)) / 100⌉ * 100 : ℤ) : ℚ) 2
    ∧ compute_suggested_budget 1000 [800, 900] = 1100
    ∧ compute_suggested_budget 950 [] = 1100 := by
  refine ⟨?_, ?_, ?_⟩
  · rw [compute_suggested_budget_closed, pyRound_intCast]
  · rw [compute_suggested_budget_closed]
    have h : (⌈(max (1000:ℚ) ((1000 + ([800, 900]:List ℚ).sum) / (1 + (([800, 900]:List ℚ).length:ℚ))) * (11/10)) / 100⌉ : ℤ) = 11 := by
      have h2 : (max (1000:ℚ) ((1000 + ([800, 900]:List ℚ).sum) / (1 + (([800, 900]:List ℚ).length:ℚ))) * (11/10)) / 100 = 11 := by
        norm_num
      rw [h2, Int.ceil_eq_iff] ; norm_num
    rw [h]; norm_num
  · rw [compute_suggested_budget_closed]
    have h : (⌈(max (950:ℚ) ((950 + ([]:List ℚ).sum) / (1 + (([]:List ℚ).length:ℚ))) * (11/10)) / 100⌉ : ℤ) = 11 := by
      have h2 : (max (950:ℚ) ((950 + ([]:List ℚ).sum) / (1 + (([]:List ℚ).length:ℚ))) * (11/10)) / 100 = 209/20 := by
        norm_num
      rw [h2, Int.ceil_eq_iff] ; norm_num
    rw [h]; norm_num

/-- Claim C6: `budget_accuracy` returns 1 when both arguments are ≤ 0, 0 when
exactly one is ≤ 0, and otherwise `1 - |budget - actual| / max budget actual`;
the result always lies in [0, 1]; equal positive arguments give 1, and
`(100, 150)` gives `1 - 50/150`. -/
theorem c6_budget_accuracy_cases (b a : ℚ) :
    (b ≤ 0 → a ≤ 0 → budget_accuracy b a = 1)
    ∧ (b ≤ 0 → 0 < a → budget_accuracy b a = 0)
    ∧ (0 < b → a ≤ 0 → budget_accuracy b a = 0)
    ∧ (0 < b → 0 < a → budget_accuracy b a = 1 - |b - a| / max b a)
    ∧ 0 ≤ budget_accuracy b a ∧ budget_accuracy b a ≤ 1
    ∧ (0 < b → b = a → budget_accuracy b a = 1)
    ∧ budget_accuracy 100 150 = 1 - 50 / 150 := by
  have hne : 0 < b → 0 < a → budget_accuracy b a = 1 - |b - a| / max b a := by
    intro hb ha
    rw [budget_accuracy, if_neg, if_neg]
    · rintro (h | h) <;> linarith
    · rintro ⟨h1, h2⟩; linarith
  have hbound : 0 ≤ budget_accuracy b a ∧ budget_accuracy b a ≤ 1 := by
    rcases le_or_lt b 0 with hb | hb
    · rcases le_or_lt a 0 with ha | ha
      · rw [budget_accuracy, if_pos ⟨hb, ha⟩]; norm_num
      · rw [budget_accuracy, if_neg (by rintro ⟨h1, h2⟩; linarith), if_pos (Or.inl hb)]
        norm_num
    · rcases le_or_lt a 0 with ha | ha
      · rw [budget_accuracy, if_neg (by rintro ⟨h1, h2⟩; linarith), if_pos (Or.inr ha)]
        norm_num
      · rw [hne hb ha]
        have hmax : 0 < max b a := lt_max_iff.mpr (Or.inl hb)
        have habs : |b - a| ≤ max b a := by
          rw [abs_le]
          constructor
          · have := le_max_right b a; linarith
          · have := le_max_left b a; linarith
        constructor
        · have h1 : |b - a| / max b a ≤ 1 := (div_le_one hmax).mpr habs
          linarith
        · have h2 : 0 ≤ |b - a| / max b a := div_nonneg (abs_nonneg _) hmax.le
          linarith
  refine ⟨?_, ?_, ?_, hne, hbound.1, hbound.2, ?_, ?_⟩
  · intro hb ha; rw [budget_accuracy, if_pos ⟨hb, ha⟩]
  · intro hb ha; rw [budget_accuracy, if_neg (by rintro ⟨h1, h2⟩; linarith), if_pos (Or.inl hb)]
  · intro hb ha; rw [budget_accuracy, if_neg (by rintro ⟨h1, h2⟩; linarith), if_pos (Or.inr ha)]
  · intro hb heq
    rw [hne hb (heq ▸ hb), heq]
    simp
  · rw [budget_accuracy, if_neg (by norm_num), if_neg (by norm_num)]
    rw [show |(100:ℚ) - 150| = 50 by rw [abs_of_nonpos (by norm_num)]; norm_num,
      max_eq_right (by norm_num : (100:ℚ) ≤ 150)]

/-- Witness for C6 at concrete inputs. -/
theorem c6_budget_accuracy_cases_witness :
    budget_accuracy 5 5 = 1 ∧ budget_accuracy (-1) 2 = 0 :=
  ⟨(c6_budget_accuracy_cases 5 5).2.2.2.2.2.2.1 (by norm_num) rfl,
   (c6_budget_accuracy_cases (-1) 2).2.1 (by norm_num) (by norm_num)⟩

/-- Claim C9: the computed sleep is `clamp(value, 1, 60)` whenever the server
supplied an integer `Retry-After` value, and `min(2 ^ attempt, 30)` otherwise,
`attempt` being the 1-based retry number, as the sleep traces of `do_request`
show. -/
theorem c9_backoff_sleep_durations (s : String) (n : ℤ) (attempt : ℕ) :
    (pyInt? s = some n → backoff_sleep (some s) attempt = max 1 (min n 60))
    ∧ backoff_sleep none attempt = min (2 ^ attempt) 30
    ∧ (do_request (fun _ => .timeout)).sleeps
        = [min (2 ^ 1) 30, min (2 ^ 2) 30, min (2 ^ 3) 30,
           min (2 ^ 4) 30, min (2 ^ 5) 30, min (2 ^ 6) 30]
    ∧ (do_request (fun _ => .status 503 (some "120"))).sleeps
        = List.replicate 6 (max 1 (min 120 60)) := by
  have h120 : pyInt? "120" = some 120 := by decide
  refine ⟨?_, rfl, ?_, ?_⟩
  · intro h
    have hs : s ≠ "" := by
      rintro rfl
      rw [show pyInt? "" = none from by decide] at h
      exact Option.noConfusion h
    simp [backoff_sleep, hs, h]
  · simp [do_request, doRequestGo, backoff_sleep]
  · simp [do_request, doRequestGo, backoff_sleep, retryableStatus, h120, List.replicate]

/-- Witness for C9 at a concrete header. -/
theorem c9_backoff_sleep_durations_witness :
    backoff_sleep (some "5") 3 = max 1 (min 5 60) :=
  (c9_backoff_sleep_durations "5" 5 3).1 (by decide)

/-- Claim C7: the computed month windows are the `n` fully elapsed calendar
months strictly before the current month, most recent first, each window
running from the first to the last day of its month; each month is queried
with the inclusive window start and the exclusive day after the window end
(the first day of the following month); with today = 2024-06-15 and n = 3
the windows are May, April and March 2024, in that order. -/
theorem c7_month_windows (today : Date) (n : ℕ)
    (h1 : 1 ≤ today.month) (h2 : today.month ≤ 12) :
    first_last_day_of_last_n_months today n = claimedMonthWindows today n
    ∧ cost_query_periods today n
        = (claimedMonthWindows today n).map (fun w => (w.1, nextMonthD w.1))
    ∧ first_last_day_of_last_n_months ⟨2024, 6, 15⟩ 3
        = [(⟨2024, 5, 1⟩, ⟨2024, 5, 31⟩), (⟨2024, 4, 1⟩, ⟨2024, 4, 30⟩),
           (⟨2024, 3, 1⟩, ⟨2024, 3, 31⟩)] := by
  have hmain : first_last_day_of_last_n_months today n = claimedMonthWindows today n := by
    rw [first_last_day_of_last_n_months]
    rw [fldGo_eq_claimed n (prevMonthD ⟨today.year, today.month, 1⟩)
        (@prevMonthD_valid ⟨today.year, today.month, 1⟩ ⟨h1, h2, rfl⟩)]
    rw [claimedMonthWindows]
    apply List.map_congr_left
    intro i _
    rw [backMonths, backMonths, Function.iterate_succ_apply]
  refine ⟨hmain, ?_, by decide⟩
  rw [cost_query_periods, hmain, claimedMonthWindows, List.map_map, List.map_map]
  apply List.map_congr_left
  intro i _
  simp only [Function.comp_apply]
  have hv : validMonthStart (backMonths (i + 1) ⟨today.year, today.month, 1⟩) :=
    backMonths_valid (i + 1) ⟨h1, h2, rfl⟩
  obtain ⟨g1, g2, _⟩ := hv
  simp only [monthWindow]
  rw [addOneDay_lastDay _ _ g1 g2]

/-- Counterexample to claim C3 as stated: with the May 2024 query succeeding
(cost 5) and the April 2024 query failing, the caller surfaces `[None, None]`
— the succeeded month's result is discarded — instead of the claimed
`[some cost, None]`. -/
theorem c3_counterexample_success_discarded :
    monthlySeriesAtCaller ⟨2024, 6, 15⟩ 2 queryAprilFails = [none, none]
    ∧ claimedMonthlySeries ⟨2024, 6, 15⟩ 2 queryAprilFails
        = [some (monthCostSum [PyVal.num 5]), none]
    ∧ monthlySeriesAtCaller ⟨2024, 6, 15⟩ 2 queryAprilFails
        ≠ claimedMonthlySeries ⟨2024, 6, 15⟩ 2 queryAprilFails := by
  have h1 : monthlySeriesAtCaller ⟨2024, 6, 15⟩ 2 queryAprilFails = [none, none] := rfl
  have h2 : claimedMonthlySeries ⟨2024, 6, 15⟩ 2 queryAprilFails
      = [some (monthCostSum [PyVal.num 5]), none] := rfl
  refine ⟨h1, h2, ?_⟩
  rw [h1, h2]
  simp

/-- Claim C3 (amended): the per-month cost loop is all-or-nothing at the
caller boundary — when every month's query succeeds the caller surfaces each
month's summed cost, but when any month's query fails the raised exception
aborts the remaining months and the caller models the ENTIRE series as
`None`, discarding the months that succeeded. -/
theorem c3_monthly_series_all_or_nothing (today : Date) (months : ℕ)
    (query : Date × Date → Except Unit (List PyVal)) :
    ((∀ p ∈ cost_query_periods today months, (query p).isOk = true) →
      monthlySeriesAtCaller today months query
        = (cost_query_periods today months).map
            (fun p => ((query p).map monthCostSum).toOption))
    ∧ ((∃ p ∈ cost_query_periods today months, (query p).isOk = false) →
      monthlySeriesAtCaller today months query = List.replicate months none) := by
  constructor
  · intro h
    have hall : ∀ se ∈ first_last_day_of_last_n_months today months,
        ((query (se.1, addOneDay se.2)).map monthCostSum).isOk = true := by
      intro se hse
      rw [exceptMap_isOk]
      exact h _ (List.mem_map_of_mem _ hse)
    obtain ⟨bs, hbs, hmap⟩ := listMapM_ok _ _ hall
    rw [monthlySeriesAtCaller, cost_query_last_months_scope, hbs]
    show bs.map some = _
    rw [hmap, cost_query_periods, List.map_map]
    rfl
  · intro h
    obtain ⟨p, hp, hpf⟩ := h
    rw [cost_query_periods] at hp
    obtain ⟨se, hse, hpe⟩ := List.mem_map.mp hp
    have herr : ∃ se2 ∈ first_last_day_of_last_n_months today months,
        ((query (se2.1, addOneDay se2.2)).map monthCostSum).isOk = false := by
      refine ⟨se, hse, ?_⟩
      rw [exceptMap_isOk, hpe]
      exact hpf
    rw [monthlySeriesAtCaller, cost_query_last_months_scope, listMapM_error _ _ herr]

/-- Witness for the amended C3 with an all-successful query. -/
theorem c3_monthly_series_all_or_nothing_witness :
    monthlySeriesAtCaller ⟨2024, 6, 15⟩ 1 (fun _ => Except.ok [])
      = (cost_query_periods ⟨2024, 6, 15⟩ 1).map
          (fun p => (((fun (_ : Date × Date) => (Except.ok [] : Except Unit (List PyVal))) p).map
            monthCostSum).toOption) :=
  (c3_monthly_series_all_or_nothing ⟨2024, 6, 15⟩ 1 (fun _ => Except.ok [])).1
    (fun _ _ => rfl)

/-- Witness for C7 at today = 2024-06-15, n = 3. -/
theorem c7_month_windows_witness :
    first_last_day_of_last_n_months ⟨2024, 6, 15⟩ 3 = claimedMonthWindows ⟨2024, 6, 15⟩ 3 :=
  (c7_month_windows ⟨2024, 6, 15⟩ 3 (by norm_num) (by norm_num)).1

/-- Counterexample to claim C2 as stated: a 304 response is a non-2xx status
outside the retryable set, yet `do_request` does not fail — it returns the
response successfully on the first attempt (`raise_for_status` raises only
for 4xx/5xx). -/
theorem c2_counterexample_304_returned :
    do_request (fun _ => .status 304 none) = ⟨.success 304, 1, []⟩ := by
  rw [do_request, doRequestGo]
  norm_num [retryableStatus, raiseForStatusRaises]

/-- Claim C2 (amended): a request whose every attempt yields a retryable
status (429/500/502/503/504) issues exactly 7 attempts and raises an
HTTP-status error carrying the final status; all-timeouts likewise re-raises
the timeout after exactly 7 attempts; a 4xx/5xx status outside the retryable
set fails immediately with no retry, while a status outside [400, 600) is
returned as a success on the first attempt. -/
theorem c2_do_request_retry_exhaustion (s c : ℕ) :
    (retryableStatus s = true →
      do_request (fun _ => .status s none) = ⟨.httpError s, 7, [2, 4, 8, 16, 30, 30]⟩)
    ∧ do_request (fun _ => .timeout) = ⟨.timeoutError, 7, [2, 4, 8, 16, 30, 30]⟩
    ∧ (retryableStatus c = false → raiseForStatusRaises c = true →
      do_request (fun _ => .status c none) = ⟨.httpError c, 1, []⟩)
    ∧ (retryableStatus c = false → raiseForStatusRaises c = false →
      do_request (fun _ => .status c none) = ⟨.success c, 1, []⟩) := by
  refine ⟨?_, ?_, ?_, ?_⟩
  · intro h
    simp only [retryableStatus, decide_eq_true_eq] at h
    rcases h with rfl | rfl | rfl | rfl | rfl <;>
      simp [do_request, doRequestGo, backoff_sleep, retryableStatus]
  · simp [do_request, doRequestGo, backoff_sleep]
  · intro h1 h2
    rw [do_request, doRequestGo]
    simp [h1, h2]
  · intro h1 h2
    rw [do_request, doRequestGo]
    simp [h1, h2]

/-- Witness for the amended C2 at concrete statuses. -/
theorem c2_do_request_retry_exhaustion_witness :
    do_request (fun _ => .status 503 none) = ⟨.httpError 503, 7, [2, 4, 8, 16, 30, 30]⟩
    ∧ do_request (fun _ => .status 404 none) = ⟨.httpError 404, 1, []⟩ :=
  ⟨(c2_do_request_retry_exhaustion 503 404).1 (by decide),
   (c2_do_request_retry_exhaustion 503 404).2.2.1 (by decide) (by decide)⟩

/-- Claim C8: the forecast-trigger prediction is evaluated only when the
condition's threshold type starts with "forecast" case-insensitively; it is
true iff the forecast percent of budget is at least the condition's threshold
percent; and it is empty/unknown — never false — whenever either operand is
missing or non-numeric; thresholdType "Forecasted" with threshold 90 and
forecast percent 95.2 gives true, and with the forecast percent absent gives
unknown. -/
theorem c8_forecast_trigger_prediction (c : Cond) (fpb : Option ℚ) (t f : ℚ) (v : PyVal) :
    (lowerStartsWithForecast c.thresholdType = false →
      forecastWillTrigger (some c) fpb = none)
    ∧ (lowerStartsWithForecast c.thresholdType = true →
      c.thresholdPercent = some (.num t) → fpb = some f →
      forecastWillTrigger (some c) fpb = some (decide (t ≤ f)))
    ∧ (fpb = none → forecastWillTrigger (some c) fpb = none)
    ∧ (c.thresholdPercent = none → forecastWillTrigger (some c) fpb = none)
    ∧ (c.thresholdPercent = some v → v.toQ? = none →
      forecastWillTrigger (some c) fpb = none)
    ∧ forecastWillTrigger
        (some ⟨"k1", true, "Forecasted", "GreaterThan", some (.num 90), "", "", ""⟩)
        (some (952/10)) = some true
    ∧ forecastWillTrigger
        (some ⟨"k1", true, "Forecasted", "GreaterThan", some (.num 90), "", "", ""⟩)
        none = none := by
  obtain ⟨k, en, tt, op, tp, a1, a2, a3⟩ := c
  refine ⟨?_, ?_, ?_, ?_, ?_, ?_, ?_⟩
  · intro h
    cases fpb <;> cases tp <;> simp_all [forecastWillTrigger]
  · intro h ht hf
    subst ht hf
    simp [forecastWillTrigger, h, PyVal.toQ?]
  · intro h
    subst h
    exact forecastWillTrigger_fpb_none _
  · intro h
    subst h
    cases fpb <;> simp [forecastWillTrigger]
  · intro hv htoq
    subst hv
    cases fpb <;> cases v <;> simp_all [forecastWillTrigger, PyVal.toQ?]
  · have h90 : ((90 : ℚ) ≤ 952/10) := by norm_num
    simp [forecastWillTrigger, PyVal.toQ?, lowerStartsWithForecast, pyLower, h90]
  · exact forecastWillTrigger_fpb_none _

/-- Witness for C8 on a concrete forecast condition. -/
theorem c8_forecast_trigger_prediction_witness :
    forecastWillTrigger
      (some ⟨"k1", true, "Forecasted", "GreaterThan", some (.num 90), "", "", ""⟩)
      (some 95) = some (decide ((90 : ℚ) ≤ 95)) :=
  (c8_forecast_trigger_prediction
    ⟨"k1", true, "Forecasted", "GreaterThan", some (.num 90), "", "", ""⟩
    (some 95) 90 95 (.num 90)).2.1 (by decide) rfl rfl

/-- Claim C10: a budget amount of exactly 0 makes the emitted rows'
BudgetAccuracy, PercentOfBudgetLastMonth and ForecastPercentOfBudget empty
even when last-month cost and forecast data are present, because the row
assembly tests the amount's truthiness; a last-month cost of exactly 0
likewise empties PercentOfBudgetLastMonth, and a forecast total of exactly 0
empties ForecastPercentOfBudget, which forces the forecast-trigger
prediction to unknown. -/
theorem c10_truthiness_zero_amount (st si sn sid rg : String) (b : Budget)
    (lv : Option ℚ) (p2 : List ℚ) (fc : Option ℚ) (rows : List Row) :
    (b.amount = some 0 →
      emit_budget_rows st si sn sid b lv p2 fc rg = .ok rows →
      ∀ r ∈ rows, r.budgetAccuracy = none ∧ r.percentOfBudgetLastMonth = none
        ∧ r.forecastPercentOfBudget = none ∧ r.forecastConditionWillTrigger = none)
    ∧ (lv = some 0 →
      emit_budget_rows st si sn sid b lv p2 fc rg = .ok rows →
      ∀ r ∈ rows, r.percentOfBudgetLastMonth = none)
    ∧ (fc = some 0 →
      emit_budget_rows st si sn sid b lv p2 fc rg = .ok rows →
      ∀ r ∈ rows, r.forecastPercentOfBudget = none
        ∧ r.forecastConditionWillTrigger = none) := by
  refine ⟨?_, ?_, ?_⟩
  · intro hamt hemit r hr
    obtain ⟨cond, rfl⟩ := emit_rows_shape st si sn sid rg b lv p2 fc rows hemit r hr
    rw [emitRow]
    refine ⟨?_, ?_, ?_, ?_⟩ <;>
      simp [hamt, emitAcc_zero_amount, emitPercentOfBudget_zero_amount,
        forecastWillTrigger_fpb_none]
  · intro hlv hemit r hr
    obtain ⟨cond, rfl⟩ := emit_rows_shape st si sn sid rg b lv p2 fc rows hemit r hr
    rw [emitRow]
    simp [hlv, emitPercentOfBudget_zero_val]
  · intro hfc hemit r hr
    obtain ⟨cond, rfl⟩ := emit_rows_shape st si sn sid rg b lv p2 fc rows hemit r hr
    rw [emitRow]
    constructor <;>
      simp [hfc, emitPercentOfBudget_zero_val, forecastWillTrigger_fpb_none]

/-- Witness for C10: a zero-amount budget with last-month cost 50 and
forecast 70 present still gets empty assessment fields. -/
theorem c10_truthiness_zero_amount_witness :
    (emitRow "Subscription" "/s" "" "" "" bAmountZero (some 50) [] (some 70) none).budgetAccuracy = none
    ∧ (emitRow "Subscription" "/s" "" "" "" bAmountZero (some 50) [] (some 70) none).percentOfBudgetLastMonth = none
    ∧ (emitRow "Subscription" "/s" "" "" "" bAmountZero (some 50) [] (some 70) none).forecastPercentOfBudget = none
    ∧ (emitRow "Subscription" "/s" "" "" "" bAmountZero (some 50) [] (some 70) none).forecastConditionWillTrigger = none :=
  (c10_truthiness_zero_amount "Subscription" "/s" "" "" "" bAmountZero (some 50) [] (some 70)
    [emitRow "Subscription" "/s" "" "" "" bAmountZero (some 50) [] (some 70) none]).1
    rfl rfl _ (by simp)

/-- Claim C5: the number of rows emitted for one budget equals
`max 1 (count of flattened notification conditions)`; at a subscription,
budget rows and the synthetic no-budget row are never produced together and
at most one synthetic row is produced; management-group and resource-group
scopes with zero budgets produce no row at all (the synthetic row exists
only at the subscription tier). -/
theorem c5_row_counts (st si sn sid rg : String) (b : Budget)
    (lv : Option ℚ) (p2 : List ℚ) (fc : Option ℚ)
    (env : Env) (today : Date) (months : ℕ) (s : SubRec) (mg : MGRec) (rgName : String)
    (pr : List Row × List Row) :
    (emit_budget_rows st si sn sid b lv p2 fc rg).map List.length
      = (flatten_notifications b.notifications).map (fun cs => max 1 cs.length)
    ∧ (processSubBudgetPart env today months s = .ok pr → pr.1 = [] ∨ pr.2 = [])
    ∧ (processSubBudgetPart env today months s = .ok pr → pr.2.length ≤ 1)
    ∧ (caughtList (env.budgetsAt (mgScopePath mg.managementGroupId)) = [] →
        processOneMG env today months mg = .ok [])
    ∧ (caughtList (env.budgetsAt (rgScopePath s.subscriptionId rgName)) = [] →
        processOneRG env today months s rgName = .ok []) := by
  have hsplit : processSubBudgetPart env today months s = .ok pr →
      (pr.1 = [] ∧ pr.2.length = 1) ∨ pr.2 = [] := by
    intro h
    by_cases hb : caughtList (env.budgetsAt (subScopePath s.subscriptionId)) = []
    · left
      simp [processSubBudgetPart, hb] at h
      rw [← h]
      exact ⟨rfl, rfl⟩
    · right
      simp only [processSubBudgetPart, ne_eq, hb, not_false_eq_true, if_true] at h
      cases hm : (caughtList (env.budgetsAt (subScopePath s.subscriptionId))).mapM
          (fun bb => emit_budget_rows "Subscription" (subScopePath s.subscriptionId)
            s.displayName s.subscriptionId bb
            (lastOfSeries (scopeMonthlySeries env today months (subScopePath s.subscriptionId)))
            (prevTwoOfSeries (scopeMonthlySeries env today months (subScopePath s.subscriptionId)))
            ((env.forecastAt (subScopePath s.subscriptionId)).toOption)) with
      | error e => rw [hm] at h; exact absurd h (by simp [Except.map])
      | ok ls =>
          rw [hm] at h
          simp [Except.map] at h
          rw [← h]
  refine ⟨?_, ?_, ?_, ?_, ?_⟩
  · cases hc : flatten_notifications b.notifications with
    | error e => simp [emit_budget_rows, hc, Except.map]
    | ok conds =>
        simp only [emit_budget_rows, hc, Except.map]
        cases conds with
        | nil => simp
        | cons x xs => simp [List.length_map]
  · intro h
    rcases hsplit h with ⟨h1, _⟩ | h2
    · exact Or.inl h1
    · exact Or.inr h2
  · intro h
    rcases hsplit h with ⟨_, h1⟩ | h2
    · omega
    · rw [h2]; simp
  · intro h
    simp [processOneMG, h]
  · intro h
    simp [processOneRG, h]

/-- Witness for C5: a management group with no budgets emits no row. -/
theorem c5_row_counts_witness :
    processOneMG envOkEmpty ⟨2024, 6, 15⟩ 3 ⟨"mg1", "MG One"⟩ = .ok [] :=
  (c5_row_counts "" "" "" "" "" {} none [] none envOkEmpty ⟨2024, 6, 15⟩ 3 ⟨"s1", ""⟩
    ⟨"mg1", "MG One"⟩ "" ([], [])).2.2.2.1 rfl

/-- Counterexample to claim C4 as stated: a run over one subscription with
`--scopes rg` whose resource-group listing raises COMPLETES SUCCESSFULLY
with an empty report — the failure is caught and downgraded to an empty
listing, it does not abort the run. -/
theorem c4_counterexample_rg_failure_not_fatal :
    mainModel envRgFails ⟨2024, 6, 15⟩ argsRgOnly = .ok ⟨[], [], [], []⟩ := by
  rfl

/-- Claim C4 (amended): a failure of the management-group descendants walk
propagates and aborts the entire run with a non-zero outcome; a failure of
the per-account resource-group listing, by contrast, is caught and
downgraded to an empty resource-group list for that account, and the run
continues. -/
theorem c4_discovery_vs_rg_failures (env : Env) (today : Date) (a : Args)
    (months : ℕ) (s : SubRec) :
    ((a.includeMG || a.includeSub || a.includeRG) = true → env.discover = .error () →
      mainModel env today a = .error ())
    ∧ (env.rgList s.subscriptionId = .error () →
      processSubRGPart env today months a s = .ok []) := by
  constructor
  · intro hinc hdisc
    simp [mainModel, hinc, hdisc, Bind.bind, Except.bind]
  · intro h
    simp only [processSubRGPart, h]
    rfl

/-- Witness for the amended C4: a failing discovery aborts the whole run. -/
theorem c4_discovery_vs_rg_failures_witness :
    mainModel envDiscFails ⟨2024, 6, 15⟩ argsAllScopes = .error () :=
  (c4_discovery_vs_rg_failures envDiscFails ⟨2024, 6, 15⟩ argsAllScopes 3 ⟨"s1", ""⟩).1 rfl rfl

end BudgetAssessment
